import Mathlib

/-!
Shallow embedding of `src/reseeding.rs` (the `ReseedingRng` wrapper):
a policy wrapper that reseeds a wrapped PRNG after it has generated a
configured number of bytes.

The wrapped generator and the seed source are opaque collaborators in the
source (`R: RngCore + SeedableRng`, `Rsdr: RngCore`), so they are embedded
as explicit state types `γ`, `ρ` together with records of operations
(`RngOps`, `SeedOps`).  The `i64` countdown is embedded as `Int` (its
decrements and resets never approach the `i64` bounds from any state the
constructor admits).  Logging macros (`trace!`, `warn!`) have no effect on
state or results and are omitted.
-/

namespace Reseeding

/-- Modelled from the spec: the error classification contract.  The error
type itself is not part of `src/`; the spec requires one discrete kind
distinguishing wait-class (`NotReady`), retry-class (`Transient`) and an
open-ended other/permanent bucket (`Other`). -/
inductive ErrorKind where
  | NotReady
  | Transient
  | Other
deriving DecidableEq

/-- Modelled from the spec: an error carries one kind and supports wrapping
an original cause with a descriptive message (cause chain). -/
inductive Error where
  | mk (kind : ErrorKind) (msg : String) (cause : Option Error)

def Error.kind : Error → ErrorKind
  | .mk k _ _ => k

def Error.cause : Error → Option Error
  | .mk _ _ c => c

/-- `Error::with_cause(kind, msg, cause)`: modelled from the spec's cause
chain requirement. -/
def Error.with_cause (k : ErrorKind) (m : String) (c : Error) : Error :=
  Error.mk k m (some c)

/-- Modelled from the spec: wait-class means the seed source is momentarily
unavailable (`NotReady`). -/
def ErrorKind.should_wait : ErrorKind → Bool
  | .NotReady => true
  | _ => false

/-- Modelled from the spec: retry-class means a transient failure worth an
immediate retry (`Transient`). -/
def ErrorKind.should_retry : ErrorKind → Bool
  | .Transient => true
  | _ => false

/-- Operations of the wrapped generator (`R: RngCore`), acting on its opaque
state `γ`.  Buffers are lists of bytes; `fill_bytes` and `try_fill_bytes`
take the destination length and return the bytes written. -/
structure RngOps (γ : Type) where
  next_u32 : γ → Nat × γ
  next_u64 : γ → Nat × γ
  fill_bytes : γ → Nat → List Nat × γ
  try_fill_bytes : γ → Nat → (Except Error (List Nat)) × γ

/-- The one capability used of the seed source: `R::from_rng(&mut reseeder)`,
fallible construction of a fresh wrapped-generator state consuming the seed
source state `ρ`. -/
structure SeedOps (γ ρ : Type) where
  from_rng : ρ → (Except Error γ) × ρ

/-- The state container `ReseedingRng { rng, reseeder, threshold,
bytes_until_reseed }`. -/
structure ReseedingRng (γ ρ : Type) where
  rng : γ
  reseeder : ρ
  threshold : Int
  bytes_until_reseed : Int
deriving DecidableEq

/-- `i64::MAX`. -/
def i64MAX : Int := 9223372036854775807

/-- `ReseedingRng::new(rng, threshold, reseeder)`.  The source asserts
`threshold <= i64::MAX as u64` (a panicking assert, embedded as `none`)
before building the state with both `threshold` and `bytes_until_reseed`
set to the given value. -/
def new (rng : γ) (threshold : Nat) (reseeder : ρ) : Option (ReseedingRng γ ρ) :=
  if (threshold : Int) ≤ i64MAX then
    some { rng := rng, reseeder := reseeder,
           threshold := (threshold : Int), bytes_until_reseed := (threshold : Int) }
  else
    none

/-- The three ways the `loop` in `reseed` can end, named after the source
comment `break; // Successfully reseeded, delayed, or given up.`  This is
ghost instrumentation: `reseed` discards it. -/
inductive ReseedOutcome where
  | success
  | delayed
  | giveup
deriving DecidableEq

/-- The `loop` body of `ReseedingRng::reseed`.  `err_count += 1; if
err_count <= 5 { continue; }` is embedded as structural fuel: the loop is
entered with `fuel = 5` remaining retries, and a retry-class failure
consumes one; with no fuel left (the source's `err_count > 5`) it gives up.
A wait-class failure sets the countdown to `threshold >> 8` (arithmetic
shift on `i64`, i.e. floor division by 256) and stops. -/
def reseedLoop (ops : SeedOps γ ρ) : Nat → ReseedingRng γ ρ → ReseedingRng γ ρ × ReseedOutcome
  | 0, s =>
    match ops.from_rng s.reseeder with
    | (Except.ok g, r) => ({ s with rng := g, reseeder := r }, ReseedOutcome.success)
    | (Except.error e, r) =>
      let s1 := { s with reseeder := r }
      if e.kind.should_wait then
        ({ s1 with bytes_until_reseed := Int.fdiv s1.threshold 256 }, ReseedOutcome.delayed)
      else
        (s1, ReseedOutcome.giveup)
  | Nat.succ fuel, s =>
    match ops.from_rng s.reseeder with
    | (Except.ok g, r) => ({ s with rng := g, reseeder := r }, ReseedOutcome.success)
    | (Except.error e, r) =>
      let s1 := { s with reseeder := r }
      if e.kind.should_wait then
        ({ s1 with bytes_until_reseed := Int.fdiv s1.threshold 256 }, ReseedOutcome.delayed)
      else if e.kind.should_retry then
        reseedLoop ops fuel s1
      else
        (s1, ReseedOutcome.giveup)

/-- `ReseedingRng::reseed`, with its ghost outcome: first resets
`bytes_until_reseed = threshold`, then runs the retry loop with 5 retries
available after the initial attempt. -/
def reseedO (ops : SeedOps γ ρ) (s : ReseedingRng γ ρ) : ReseedingRng γ ρ × ReseedOutcome :=
  reseedLoop ops 5 { s with bytes_until_reseed := s.threshold }

/-- `ReseedingRng::reseed` (infallible, absorbs every error). -/
def reseed (ops : SeedOps γ ρ) (s : ReseedingRng γ ρ) : ReseedingRng γ ρ :=
  (reseedO ops s).1

/-- `ReseedingRng::try_reseed`: single attempt; on failure the kind is
narrowed (`NotReady`/`Transient` kept, anything else relabeled `Transient`
with the countdown forced back to `threshold`); on success the wrapped
generator is replaced and the countdown reset. -/
def try_reseed (ops : SeedOps γ ρ) (s : ReseedingRng γ ρ) :
    (Except Error Unit) × ReseedingRng γ ρ :=
  match ops.from_rng s.reseeder with
  | (Except.error err, r) =>
    let s1 := { s with reseeder := r }
    match err.kind with
    | ErrorKind.NotReady =>
      (Except.error (Error.with_cause ErrorKind.NotReady "reseeding failed" err), s1)
    | ErrorKind.Transient =>
      (Except.error (Error.with_cause ErrorKind.Transient "reseeding failed" err), s1)
    | ErrorKind.Other =>
      (Except.error (Error.with_cause ErrorKind.Transient "reseeding failed" err),
       { s1 with bytes_until_reseed := s1.threshold })
  | (Except.ok g, r) =>
    (Except.ok (), { s with rng := g, reseeder := r, bytes_until_reseed := s.threshold })

/-- `RngCore::next_u32` for `ReseedingRng`: draw, decrement by 4, reseed if
the countdown reached or crossed zero, return the value drawn before any
reseed. -/
def next_u32 (gops : RngOps γ) (sops : SeedOps γ ρ) (s : ReseedingRng γ ρ) :
    Nat × ReseedingRng γ ρ :=
  let vg := gops.next_u32 s.rng
  let s1 := { s with rng := vg.2, bytes_until_reseed := s.bytes_until_reseed - 4 }
  (vg.1, if s1.bytes_until_reseed ≤ 0 then reseed sops s1 else s1)

/-- `RngCore::next_u64` for `ReseedingRng`: draw, decrement by 8, reseed if
the countdown reached or crossed zero, return the value drawn before any
reseed. -/
def next_u64 (gops : RngOps γ) (sops : SeedOps γ ρ) (s : ReseedingRng γ ρ) :
    Nat × ReseedingRng γ ρ :=
  let vg := gops.next_u64 s.rng
  let s1 := { s with rng := vg.2, bytes_until_reseed := s.bytes_until_reseed - 8 }
  (vg.1, if s1.bytes_until_reseed ≤ 0 then reseed sops s1 else s1)

/-- `RngCore::fill_bytes` for `ReseedingRng`: fill `len` bytes from the
wrapped generator, decrement by `len`, reseed if the countdown reached or
crossed zero. -/
def fill_bytes (gops : RngOps γ) (sops : SeedOps γ ρ) (s : ReseedingRng γ ρ) (len : Nat) :
    List Nat × ReseedingRng γ ρ :=
  let bg := gops.fill_bytes s.rng len
  let s1 := { s with rng := bg.2, bytes_until_reseed := s.bytes_until_reseed - (len : Int) }
  (bg.1, if s1.bytes_until_reseed ≤ 0 then reseed sops s1 else s1)

/-- `RngCore::try_fill_bytes` for `ReseedingRng`: a failure of the wrapped
generator's fallible fill is propagated immediately (the `?` operator);
otherwise decrement by `len` and, if the countdown reached or crossed zero,
run `try_reseed` and propagate its result. -/
def try_fill_bytes (gops : RngOps γ) (sops : SeedOps γ ρ) (s : ReseedingRng γ ρ) (len : Nat) :
    (Except Error (List Nat)) × ReseedingRng γ ρ :=
  match gops.try_fill_bytes s.rng len with
  | (Except.error e, g) => (Except.error e, { s with rng := g })
  | (Except.ok buf, g) =>
    let s1 := { s with rng := g, bytes_until_reseed := s.bytes_until_reseed - (len : Int) }
    if s1.bytes_until_reseed ≤ 0 then
      match try_reseed sops s1 with
      | (Except.ok _, s2) => (Except.ok buf, s2)
      | (Except.error e, s2) => (Except.error e, s2)
    else
      (Except.ok buf, s1)

/-- Ghost instrumentation: wrap a seed source so that its state also counts
how many times `from_rng` has been invoked. -/
def countingOps (ops : SeedOps γ ρ) : SeedOps γ (ρ × Nat) where
  from_rng := fun p =>
    let rr := ops.from_rng p.1
    (rr.1, (rr.2, p.2 + 1))

/-! ### Concrete fixtures for witnesses and counterexamples -/

/-- A concrete error of each kind, for witnesses. -/
def errNotReady : Error := Error.mk ErrorKind.NotReady "not ready" none

def errTransient : Error := Error.mk ErrorKind.Transient "transient" none

def errOther : Error := Error.mk ErrorKind.Other "permanent" none

/-- Seed source that always fails retry-class; its state counts invocations. -/
def opsAlwaysTransient : SeedOps Nat Nat where
  from_rng := fun r => (Except.error errTransient, r + 1)

/-- Seed source that always fails wait-class. -/
def opsAlwaysNotReady : SeedOps Nat Nat where
  from_rng := fun r => (Except.error errNotReady, r + 1)

/-- Seed source that always fails with a permanent kind. -/
def opsAlwaysOther : SeedOps Nat Nat where
  from_rng := fun r => (Except.error errOther, r + 1)

/-- Seed source that always succeeds, returning a fresh generator state. -/
def opsAlwaysOk : SeedOps Nat Nat where
  from_rng := fun r => (Except.ok (r + 100), r + 1)

/-- A concrete wrapped generator on state `Nat`: emits its state and steps it. -/
def gopsNat : RngOps Nat where
  next_u32 := fun g => (g, g + 1)
  next_u64 := fun g => (g * 2, g + 1)
  fill_bytes := fun g len => (List.replicate len g, g + 1)
  try_fill_bytes := fun g len =>
    if g = 999 then (Except.error errOther, g + 1)
    else (Except.ok (List.replicate len g), g + 1)

/-- A concrete starting state over plain `Nat` collaborator states. -/
def state0 : ReseedingRng Nat Nat :=
  { rng := 7, reseeder := 0, threshold := 1000, bytes_until_reseed := 1000 }

/-- A concrete starting state whose seed-source state carries a counter. -/
def cstate0 : ReseedingRng Nat (Nat × Nat) :=
  { rng := 7, reseeder := (0, 0), threshold := 1000, bytes_until_reseed := 1000 }

/-- A zero-threshold state (as produced by `new` with threshold 0), with a
counting seed-source state. -/
def zstate : ReseedingRng Nat (Nat × Nat) :=
  { rng := 7, reseeder := (0, 0), threshold := 0, bytes_until_reseed := 0 }

/-- A state whose wrapped generator (`gopsNat` at state 999) fails its
fallible fill. -/
def estate : ReseedingRng Nat Nat :=
  { rng := 999, reseeder := 0, threshold := 1000, bytes_until_reseed := 4 }

/-! ### Helper lemmas about the reseed loop -/

theorem reseedLoop_ok (ops : SeedOps γ ρ) (fuel : Nat) (s : ReseedingRng γ ρ)
    (g : γ) (r : ρ) (h : ops.from_rng s.reseeder = (Except.ok g, r)) :
    reseedLoop ops fuel s = ({ s with rng := g, reseeder := r }, ReseedOutcome.success) := by
  cases fuel <;> simp [reseedLoop, h]

theorem reseedLoop_wait (ops : SeedOps γ ρ) (fuel : Nat) (s : ReseedingRng γ ρ)
    (e : Error) (r : ρ) (h : ops.from_rng s.reseeder = (Except.error e, r))
    (hk : e.kind = ErrorKind.NotReady) :
    reseedLoop ops fuel s =
      ({ s with reseeder := r, bytes_until_reseed := Int.fdiv s.threshold 256 },
        ReseedOutcome.delayed) := by
  cases fuel <;> simp [reseedLoop, h, hk, ErrorKind.should_wait]

theorem reseedLoop_other (ops : SeedOps γ ρ) (fuel : Nat) (s : ReseedingRng γ ρ)
    (e : Error) (r : ρ) (h : ops.from_rng s.reseeder = (Except.error e, r))
    (hk : e.kind = ErrorKind.Other) :
    reseedLoop ops fuel s = ({ s with reseeder := r }, ReseedOutcome.giveup) := by
  cases fuel <;>
    simp [reseedLoop, h, hk, ErrorKind.should_wait, ErrorKind.should_retry]

/-- With a seed source that always fails retry-class, the loop with `fuel`
retries remaining performs `fuel + 1` reconstruction attempts and gives up,
changing nothing but the seed-source state. -/
theorem reseedLoop_transient_counting (ops : SeedOps γ ρ)
    (h : ∀ r, ∃ e r2, ops.from_rng r = (Except.error e, r2) ∧ e.kind = ErrorKind.Transient)
    (fuel : Nat) :
    ∀ s : ReseedingRng γ (ρ × Nat),
      (reseedLoop (countingOps ops) fuel s).1.reseeder.2 = s.reseeder.2 + fuel + 1 ∧
      (reseedLoop (countingOps ops) fuel s).1.rng = s.rng ∧
      (reseedLoop (countingOps ops) fuel s).1.bytes_until_reseed = s.bytes_until_reseed ∧
      (reseedLoop (countingOps ops) fuel s).1.threshold = s.threshold ∧
      (reseedLoop (countingOps ops) fuel s).2 = ReseedOutcome.giveup := by
  induction fuel with
  | zero =>
    intro s
    obtain ⟨e, r2, hfr, hk⟩ := h s.reseeder.1
    simp [reseedLoop, countingOps, hfr, hk, ErrorKind.should_wait, ErrorKind.should_retry]
  | succ n ih =>
    intro s
    obtain ⟨e, r2, hfr, hk⟩ := h s.reseeder.1
    have hc : (countingOps ops).from_rng s.reseeder =
        (Except.error e, (r2, s.reseeder.2 + 1)) := by
      simp [countingOps, hfr]
    have hih := ih { s with reseeder := (r2, s.reseeder.2 + 1) }
    rw [reseedLoop, hc]
    simp only [hk, ErrorKind.should_wait, ErrorKind.should_retry, if_false, if_true,
      Bool.false_eq_true, ite_false, ite_true]
    refine ⟨?_, ?_, ?_, ?_, ?_⟩
    · rw [hih.1]; dsimp only; omega
    · exact hih.2.1
    · exact hih.2.2.1
    · exact hih.2.2.2.1
    · exact hih.2.2.2.2

/-- The loop never touches `threshold`; on `success` it leaves the countdown
as it found it; on `giveup` it leaves both the wrapped generator and the
countdown as it found them. -/
theorem reseedLoop_pres (ops : SeedOps γ ρ) (fuel : Nat) :
    ∀ s : ReseedingRng γ ρ,
      (reseedLoop ops fuel s).1.threshold = s.threshold ∧
      ((reseedLoop ops fuel s).2 = ReseedOutcome.success →
        (reseedLoop ops fuel s).1.bytes_until_reseed = s.bytes_until_reseed) ∧
      ((reseedLoop ops fuel s).2 = ReseedOutcome.giveup →
        (reseedLoop ops fuel s).1.rng = s.rng ∧
        (reseedLoop ops fuel s).1.bytes_until_reseed = s.bytes_until_reseed) := by
  induction fuel with
  | zero =>
    intro s
    rcases hfr : ops.from_rng s.reseeder with ⟨res, r⟩
    cases res with
    | ok g => simp [reseedLoop, hfr]
    | error e =>
      cases hk : e.kind <;>
        simp [reseedLoop, hfr, hk, ErrorKind.should_wait, ErrorKind.should_retry]
  | succ n ih =>
    intro s
    rcases hfr : ops.from_rng s.reseeder with ⟨res, r⟩
    cases res with
    | ok g => simp [reseedLoop, hfr]
    | error e =>
      cases hk : e.kind with
      | NotReady =>
        simp [reseedLoop, hfr, hk, ErrorKind.should_wait, ErrorKind.should_retry]
      | Other =>
        simp [reseedLoop, hfr, hk, ErrorKind.should_wait, ErrorKind.should_retry]
      | Transient =>
        have hih := ih { s with reseeder := r }
        simp only [reseedLoop, hfr, hk, ErrorKind.should_wait, ErrorKind.should_retry]
        simpa using hih

/-- With a seed source that always succeeds, a counted reseed makes exactly
one reconstruction attempt and resets the countdown to the threshold. -/
theorem reseed_counting_ok (ops : SeedOps γ ρ)
    (h : ∀ r, ∃ g r2, ops.from_rng r = (Except.ok g, r2))
    (s : ReseedingRng γ (ρ × Nat)) :
    (reseed (countingOps ops) s).reseeder.2 = s.reseeder.2 + 1 ∧
    (reseed (countingOps ops) s).bytes_until_reseed = s.threshold := by
  obtain ⟨g, r2, hfr⟩ := h s.reseeder.1
  have hc : (countingOps ops).from_rng
      (ReseedingRng.reseeder { s with bytes_until_reseed := s.threshold }) =
      (Except.ok g, (r2, s.reseeder.2 + 1)) := by
    simp [countingOps, hfr]
  rw [reseed, reseedO, reseedLoop_ok (countingOps ops) 5 _ g (r2, s.reseeder.2 + 1) hc]
  simp

/-- With a seed source that always succeeds, a counted `try_reseed` makes
exactly one reconstruction attempt, succeeds, and resets the countdown. -/
theorem try_reseed_counting_ok (ops : SeedOps γ ρ)
    (h : ∀ r, ∃ g r2, ops.from_rng r = (Except.ok g, r2))
    (s : ReseedingRng γ (ρ × Nat)) :
    (try_reseed (countingOps ops) s).1 = Except.ok () ∧
    (try_reseed (countingOps ops) s).2.reseeder.2 = s.reseeder.2 + 1 ∧
    (try_reseed (countingOps ops) s).2.bytes_until_reseed = s.threshold := by
  obtain ⟨g, r2, hfr⟩ := h s.reseeder.1
  simp [try_reseed, countingOps, hfr]

/-! ### Claims -/

/-- C1: every error returned by the fallible reseed procedure `try_reseed`
has kind exactly wait-class (`NotReady`) or retry-class (`Transient`), never
any other kind; wait-class and retry-class causes are propagated with the
same kind, and any other cause is relabeled retry-class; in every failure
case the original error is wrapped as the cause. -/
theorem try_reseed_kind_narrowed (ops : SeedOps γ ρ) (s : ReseedingRng γ ρ)
    (e : Error) (r : ρ) (h : ops.from_rng s.reseeder = (Except.error e, r)) :
    ∃ e2, (try_reseed ops s).1 = Except.error e2 ∧ e2.cause = some e ∧
      (e2.kind = ErrorKind.NotReady ∨ e2.kind = ErrorKind.Transient) ∧
      (e.kind = ErrorKind.NotReady → e2.kind = ErrorKind.NotReady) ∧
      (e.kind = ErrorKind.Transient → e2.kind = ErrorKind.Transient) ∧
      (e.kind ≠ ErrorKind.NotReady → e.kind ≠ ErrorKind.Transient →
        e2.kind = ErrorKind.Transient) := by
  obtain ⟨k, m, c⟩ := e
  cases k with
  | NotReady =>
    refine ⟨Error.mk ErrorKind.NotReady "reseeding failed"
        (some (Error.mk ErrorKind.NotReady m c)),
      ?_, rfl, Or.inl rfl, fun _ => rfl, ?_, ?_⟩
    · rw [try_reseed, h]; rfl
    · intro hco; simp [Error.kind] at hco
    · intro hn _; exact absurd rfl hn
  | Transient =>
    refine ⟨Error.mk ErrorKind.Transient "reseeding failed"
        (some (Error.mk ErrorKind.Transient m c)),
      ?_, rfl, Or.inr rfl, ?_, fun _ => rfl, ?_⟩
    · rw [try_reseed, h]; rfl
    · intro hco; simp [Error.kind] at hco
    · intro _ ht; exact absurd rfl ht
  | Other =>
    refine ⟨Error.mk ErrorKind.Transient "reseeding failed"
        (some (Error.mk ErrorKind.Other m c)),
      ?_, rfl, Or.inr rfl, ?_, ?_, fun _ _ => rfl⟩
    · rw [try_reseed, h]; rfl
    · intro hco; simp [Error.kind] at hco
    · intro hco; simp [Error.kind] at hco

/-- C1 witness: a permanent-kind cause is relabeled retry-class with the
original wrapped as cause. -/
theorem try_reseed_kind_narrowed_witness :
    ∃ e2, (try_reseed opsAlwaysOther state0).1 = Except.error e2 ∧
      (e2.kind = ErrorKind.NotReady ∨ e2.kind = ErrorKind.Transient) ∧
      e2.cause = some errOther := by
  obtain ⟨e2, he, hc, hk, -⟩ :=
    try_reseed_kind_narrowed opsAlwaysOther state0 errOther 1 rfl
  exact ⟨e2, he, hk, hc⟩

/-- C2 counterexample: with a seed source that always fails retry-class and
whose state counts reconstruction attempts, the infallible reseed procedure
invokes reconstruction 6 times, not exactly 5 as the claim states. -/
theorem reseed_transient_attempts_counterexample :
    (reseed opsAlwaysTransient state0).reseeder = 6 ∧
    (reseed opsAlwaysTransient state0).reseeder ≠ 5 := by
  constructor <;> decide

/-- C2 amended: when the infallible reseed procedure encounters only
retry-class failures it retries immediately in a loop, making up to 6 total
reconstruction attempts (the initial attempt plus 5 retries); if all are
exhausted it gives up with the wrapped generator unchanged and the countdown
left at threshold; with an always retry-class seed source reconstruction is
invoked exactly 6 times and the procedure terminates. -/
theorem reseed_transient_six_attempts (ops : SeedOps γ ρ)
    (h : ∀ r, ∃ e r2, ops.from_rng r = (Except.error e, r2) ∧ e.kind = ErrorKind.Transient)
    (s : ReseedingRng γ (ρ × Nat)) :
    (reseed (countingOps ops) s).reseeder.2 = s.reseeder.2 + 6 ∧
    (reseed (countingOps ops) s).rng = s.rng ∧
    (reseed (countingOps ops) s).bytes_until_reseed = s.threshold := by
  have hl := reseedLoop_transient_counting ops h 5 { s with bytes_until_reseed := s.threshold }
  rw [reseed, reseedO]
  refine ⟨?_, hl.2.1, ?_⟩
  · rw [hl.1]
  · rw [hl.2.2.1]

/-- C2 witness for the amended claim, at a concrete always-transient seed
source and state. -/
theorem reseed_transient_six_attempts_witness :
    (reseed (countingOps opsAlwaysTransient) cstate0).reseeder.2 = cstate0.reseeder.2 + 6 ∧
    (reseed (countingOps opsAlwaysTransient) cstate0).rng = cstate0.rng ∧
    (reseed (countingOps opsAlwaysTransient) cstate0).bytes_until_reseed = cstate0.threshold :=
  reseed_transient_six_attempts opsAlwaysTransient
    (fun r => ⟨errTransient, r + 1, rfl, rfl⟩) cstate0

/-- C3: with a seed source that always succeeds immediately (and whose state
counts accesses), every generation operation makes exactly one reconstruction
attempt when, after decrementing the countdown by the bytes produced
(4, 8, or `len`), it is ≤ 0, and none otherwise; consequently with
threshold 0 (where the countdown is always ≤ 0) every generation call
triggers exactly one reseed attempt. -/
theorem generation_trigger_exact (gops : RngOps γ) (ops : SeedOps γ ρ)
    (hok : ∀ r, ∃ g r2, ops.from_rng r = (Except.ok g, r2))
    (s : ReseedingRng γ (ρ × Nat)) (len : Nat) :
    ((next_u32 gops (countingOps ops) s).2.reseeder.2 =
        s.reseeder.2 + (if s.bytes_until_reseed - 4 ≤ 0 then 1 else 0)) ∧
    ((next_u64 gops (countingOps ops) s).2.reseeder.2 =
        s.reseeder.2 + (if s.bytes_until_reseed - 8 ≤ 0 then 1 else 0)) ∧
    ((fill_bytes gops (countingOps ops) s len).2.reseeder.2 =
        s.reseeder.2 + (if s.bytes_until_reseed - (len : Int) ≤ 0 then 1 else 0)) ∧
    (∀ buf g, gops.try_fill_bytes s.rng len = (Except.ok buf, g) →
      (try_fill_bytes gops (countingOps ops) s len).2.reseeder.2 =
        s.reseeder.2 + (if s.bytes_until_reseed - (len : Int) ≤ 0 then 1 else 0)) ∧
    (s.threshold = 0 → s.bytes_until_reseed ≤ 0 →
      (next_u32 gops (countingOps ops) s).2.reseeder.2 = s.reseeder.2 + 1 ∧
      (next_u64 gops (countingOps ops) s).2.reseeder.2 = s.reseeder.2 + 1 ∧
      (fill_bytes gops (countingOps ops) s len).2.reseeder.2 = s.reseeder.2 + 1) := by
  have h32 : (next_u32 gops (countingOps ops) s).2.reseeder.2 =
      s.reseeder.2 + (if s.bytes_until_reseed - 4 ≤ 0 then 1 else 0) := by
    by_cases hle : s.bytes_until_reseed - 4 ≤ 0
    · have hr := reseed_counting_ok ops hok
        { s with rng := (gops.next_u32 s.rng).2,
                 bytes_until_reseed := s.bytes_until_reseed - 4 }
      simp [next_u32, hle, hr.1]
    · simp [next_u32, hle]
  have h64 : (next_u64 gops (countingOps ops) s).2.reseeder.2 =
      s.reseeder.2 + (if s.bytes_until_reseed - 8 ≤ 0 then 1 else 0) := by
    by_cases hle : s.bytes_until_reseed - 8 ≤ 0
    · have hr := reseed_counting_ok ops hok
        { s with rng := (gops.next_u64 s.rng).2,
                 bytes_until_reseed := s.bytes_until_reseed - 8 }
      simp [next_u64, hle, hr.1]
    · simp [next_u64, hle]
  have hfb : (fill_bytes gops (countingOps ops) s len).2.reseeder.2 =
      s.reseeder.2 + (if s.bytes_until_reseed - (len : Int) ≤ 0 then 1 else 0) := by
    by_cases hle : s.bytes_until_reseed - (len : Int) ≤ 0
    · have hr := reseed_counting_ok ops hok
        { s with rng := (gops.fill_bytes s.rng len).2,
                 bytes_until_reseed := s.bytes_until_reseed - (len : Int) }
      simp [fill_bytes, hle, hr.1]
    · simp [fill_bytes, hle]
  refine ⟨h32, h64, hfb, ?_, ?_⟩
  · intro buf g hfill
    by_cases hle : s.bytes_until_reseed - (len : Int) ≤ 0
    · have hr := try_reseed_counting_ok ops hok
        { s with rng := g, bytes_until_reseed := s.bytes_until_reseed - (len : Int) }
      rcases htr : try_reseed (countingOps ops)
          { s with rng := g, bytes_until_reseed := s.bytes_until_reseed - (len : Int) }
        with ⟨tres, s2⟩
      rw [htr] at hr
      cases tres with
      | ok u =>
        simp only [] at hr
        have hcnt : s2.reseeder.2 = s.reseeder.2 + 1 := by
          have := hr.2.1
          simpa using this
        simp [try_fill_bytes, hfill, hle, htr, hcnt]
      | error e2 => simp at hr
    · simp [try_fill_bytes, hfill, hle]
  · intro hth hbz
    have c1 : s.bytes_until_reseed - 4 ≤ 0 := by omega
    have c2 : s.bytes_until_reseed - 8 ≤ 0 := by omega
    have c3 : s.bytes_until_reseed - (len : Int) ≤ 0 := by
      have : (0 : Int) ≤ (len : Int) := Int.ofNat_nonneg len
      omega
    rw [h32, h64, hfb, if_pos c1, if_pos c2, if_pos c3]
    exact ⟨rfl, rfl, rfl⟩

/-- C3 witness: at a zero-threshold state with an always-succeeding counted
seed source, one generation call of each flavor makes exactly one
reconstruction attempt. -/
theorem generation_trigger_exact_witness :
    (next_u32 gopsNat (countingOps opsAlwaysOk) zstate).2.reseeder.2 =
      zstate.reseeder.2 + 1 ∧
    (next_u64 gopsNat (countingOps opsAlwaysOk) zstate).2.reseeder.2 =
      zstate.reseeder.2 + 1 ∧
    (fill_bytes gopsNat (countingOps opsAlwaysOk) zstate 16).2.reseeder.2 =
      zstate.reseeder.2 + 1 :=
  (generation_trigger_exact gopsNat opsAlwaysOk
    (fun r => ⟨r + 100, r + 1, rfl⟩) zstate 16).2.2.2.2 rfl (by decide)

/-- C4: immediately after any successful reconstruction of the wrapped
generator — the infallible procedure ending in the `success` outcome, or the
fallible procedure returning ok — the countdown equals the threshold
exactly. -/
theorem reseed_success_resets (ops : SeedOps γ ρ) (s : ReseedingRng γ ρ) :
    ((reseedO ops s).2 = ReseedOutcome.success →
      (reseed ops s).bytes_until_reseed = s.threshold ∧
      (reseed ops s).threshold = s.threshold) ∧
    (∀ s2, try_reseed ops s = (Except.ok (), s2) →
      s2.bytes_until_reseed = s.threshold ∧ s2.threshold = s.threshold) := by
  constructor
  · intro hs
    have hp := reseedLoop_pres ops 5 { s with bytes_until_reseed := s.threshold }
    rw [reseed, reseedO] at *
    refine ⟨?_, ?_⟩
    · rw [hp.2.1 hs]
    · rw [hp.1]
  · intro s2 h2
    rcases hfr : ops.from_rng s.reseeder with ⟨res, r⟩
    cases res with
    | ok g =>
      rw [try_reseed, hfr] at h2
      simp at h2
      rw [← h2]
      exact ⟨rfl, rfl⟩
    | error e =>
      exfalso
      cases hk : e.kind <;> rw [try_reseed, hfr] at h2 <;> simp [hk] at h2

/-- C4 witness: with an always-succeeding seed source the infallible
procedure ends in `success` and the countdown is reset; the fallible
procedure returns ok and the countdown is reset. -/
theorem reseed_success_resets_witness :
    (reseed opsAlwaysOk state0).bytes_until_reseed = state0.threshold ∧
    (try_reseed opsAlwaysOk state0).2.bytes_until_reseed = state0.threshold := by
  have h := reseed_success_resets opsAlwaysOk state0
  refine ⟨(h.1 (by decide)).1, ?_⟩
  exact (h.2 (try_reseed opsAlwaysOk state0).2 rfl).1

/-- C5: if the seed source reports a wait-class failure during the
infallible reseed procedure, there is no retry (exactly one reconstruction
attempt) and on return the countdown equals the floor division of the
threshold by 256 (the source's arithmetic shift `threshold >> 8`). -/
theorem reseed_notready_delay (ops : SeedOps γ ρ)
    (h : ∀ r, ∃ e r2, ops.from_rng r = (Except.error e, r2) ∧ e.kind = ErrorKind.NotReady)
    (s : ReseedingRng γ (ρ × Nat)) :
    (reseed (countingOps ops) s).bytes_until_reseed = Int.fdiv s.threshold 256 ∧
    (reseed (countingOps ops) s).reseeder.2 = s.reseeder.2 + 1 ∧
    (reseed (countingOps ops) s).rng = s.rng := by
  obtain ⟨e, r2, hfr, hk⟩ := h s.reseeder.1
  have hc : (countingOps ops).from_rng
      (ReseedingRng.reseeder { s with bytes_until_reseed := s.threshold }) =
      (Except.error e, (r2, s.reseeder.2 + 1)) := by
    simp [countingOps, hfr]
  rw [reseed, reseedO, reseedLoop_wait (countingOps ops) 5 _ e (r2, s.reseeder.2 + 1) hc hk]
  exact ⟨rfl, rfl, rfl⟩

/-- C5 witness: concrete wait-class delay, `fdiv 1000 256 = 3` and a single
attempt. -/
theorem reseed_notready_delay_witness :
    (reseed (countingOps opsAlwaysNotReady) cstate0).bytes_until_reseed =
      Int.fdiv cstate0.threshold 256 ∧
    (reseed (countingOps opsAlwaysNotReady) cstate0).reseeder.2 = cstate0.reseeder.2 + 1 :=
  ⟨(reseed_notready_delay opsAlwaysNotReady
      (fun r => ⟨errNotReady, r + 1, rfl, rfl⟩) cstate0).1,
   (reseed_notready_delay opsAlwaysNotReady
      (fun r => ⟨errNotReady, r + 1, rfl, rfl⟩) cstate0).2.1⟩

/-- C6: the three infallible operations are total functions of the state
(they can neither fail nor panic in the embedding), and for every state and
every seed-source behavior each returns exactly the value drawn from the
wrapped generator before any reseed runs. -/
theorem infallible_ops_absorb (gops : RngOps γ) (sops : SeedOps γ ρ)
    (s : ReseedingRng γ ρ) (len : Nat) :
    (next_u32 gops sops s).1 = (gops.next_u32 s.rng).1 ∧
    (next_u64 gops sops s).1 = (gops.next_u64 s.rng).1 ∧
    (fill_bytes gops sops s len).1 = (gops.fill_bytes s.rng len).1 :=
  ⟨rfl, rfl, rfl⟩

/-- C7: when the infallible reseed procedure gives up — a permanent-class
failure, or retry-class exhaustion (exactly the `giveup` outcome) — the
wrapped generator is unchanged, so its subsequent output is byte-identical
to the no-reseed-attempt stream, and the countdown equals the threshold. -/
theorem reseed_giveup_frame (ops : SeedOps γ ρ) (s : ReseedingRng γ ρ)
    (gops : RngOps γ) (len : Nat)
    (h : (reseedO ops s).2 = ReseedOutcome.giveup) :
    (reseed ops s).rng = s.rng ∧
    (reseed ops s).bytes_until_reseed = s.threshold ∧
    gops.fill_bytes (reseed ops s).rng len = gops.fill_bytes s.rng len := by
  have hp := reseedLoop_pres ops 5 { s with bytes_until_reseed := s.threshold }
  rw [reseedO] at h
  have hg := hp.2.2 h
  rw [reseed, reseedO]
  exact ⟨hg.1, hg.2, by rw [hg.1]⟩

/-- C7 witness: an always-permanent seed source ends in `giveup`; the
wrapped generator and its output stream are untouched and the countdown
equals the threshold. -/
theorem reseed_giveup_frame_witness :
    (reseed opsAlwaysOther state0).rng = state0.rng ∧
    (reseed opsAlwaysOther state0).bytes_until_reseed = state0.threshold ∧
    gopsNat.fill_bytes (reseed opsAlwaysOther state0).rng 8 =
      gopsNat.fill_bytes state0.rng 8 :=
  reseed_giveup_frame opsAlwaysOther state0 gopsNat 8 (by decide)

/-- C8: when the fallible reseed procedure fails on a wait-class or
retry-class cause it leaves both the countdown and the wrapped generator
unchanged; only on a cause of any other kind does it force the countdown
back to the threshold, still leaving the wrapped generator unchanged. -/
theorem try_reseed_frame (ops : SeedOps γ ρ) (s : ReseedingRng γ ρ)
    (e : Error) (r : ρ)
    (h : ops.from_rng s.reseeder = (Except.error e, r)) :
    ((e.kind = ErrorKind.NotReady ∨ e.kind = ErrorKind.Transient) →
      (try_reseed ops s).2.bytes_until_reseed = s.bytes_until_reseed ∧
      (try_reseed ops s).2.rng = s.rng) ∧
    ((e.kind ≠ ErrorKind.NotReady ∧ e.kind ≠ ErrorKind.Transient) →
      (try_reseed ops s).2.bytes_until_reseed = s.threshold ∧
      (try_reseed ops s).2.rng = s.rng) := by
  cases hk : e.kind <;> simp [try_reseed, h, hk]

/-- C8 witness: a wait-class failure leaves the countdown and generator
unchanged; a permanent failure forces the countdown to the threshold. -/
theorem try_reseed_frame_witness :
    ((try_reseed opsAlwaysNotReady estate).2.bytes_until_reseed =
        estate.bytes_until_reseed ∧
      (try_reseed opsAlwaysNotReady estate).2.rng = estate.rng) ∧
    ((try_reseed opsAlwaysOther estate).2.bytes_until_reseed = estate.threshold ∧
      (try_reseed opsAlwaysOther estate).2.rng = estate.rng) :=
  ⟨(try_reseed_frame opsAlwaysNotReady estate errNotReady 1 rfl).1 (Or.inl rfl),
   (try_reseed_frame opsAlwaysOther estate errOther 1 rfl).2 ⟨by decide, by decide⟩⟩

/-- C9: construction rejects (before producing any state) every threshold
above `i64::MAX`, and for every threshold within range it succeeds with
both the threshold and the countdown initialized to that value and the two
collaborator states stored untouched. -/
theorem new_threshold_guard (g : γ) (r : ρ) (t : Nat) :
    (i64MAX < (t : Int) → new g t r = (none : Option (ReseedingRng γ ρ))) ∧
    ((t : Int) ≤ i64MAX → ∃ s, new g t r = some s ∧ s.threshold = (t : Int) ∧
      s.bytes_until_reseed = (t : Int) ∧ s.rng = g ∧ s.reseeder = r) := by
  constructor
  · intro hgt
    rw [new, if_neg (by omega)]
  · intro hle
    exact ⟨_, by rw [new, if_pos hle], rfl, rfl, rfl, rfl⟩

/-- C9 witness: threshold `2^63` (just above `i64::MAX`) is rejected;
threshold 42 constructs a state with threshold and countdown 42. -/
theorem new_threshold_guard_witness :
    new (7 : Nat) (2 ^ 63) (0 : Nat) = none ∧
    ∃ s, new (7 : Nat) 42 (0 : Nat) = some s ∧ s.threshold = (42 : Int) ∧
      s.bytes_until_reseed = (42 : Int) :=
  ⟨(new_threshold_guard 7 0 (2 ^ 63)).1 (by decide),
   by
    obtain ⟨s, hs, h1, h2, -⟩ := (new_threshold_guard (7 : Nat) (0 : Nat) 42).2 (by decide)
    exact ⟨s, hs, h1, h2⟩⟩

/-- C10: if the wrapped generator's fallible fill itself fails inside
`try_fill_bytes`, that error is propagated immediately and the wrapper state
is unchanged except for the wrapped generator's own internal stepping: the
countdown is not decremented and the seed source (hence any reseed attempt)
is never touched. -/
theorem try_fill_inner_error_frame (gops : RngOps γ) (sops : SeedOps γ ρ)
    (s : ReseedingRng γ ρ) (len : Nat) (e : Error) (g : γ)
    (h : gops.try_fill_bytes s.rng len = (Except.error e, g)) :
    try_fill_bytes gops sops s len = (Except.error e, { s with rng := g }) ∧
    (try_fill_bytes gops sops s len).2.bytes_until_reseed = s.bytes_until_reseed ∧
    (try_fill_bytes gops sops s len).2.reseeder = s.reseeder := by
  rw [try_fill_bytes, h]
  exact ⟨rfl, rfl, rfl⟩

/-- C10 witness: at the fixture whose wrapped generator fails its fallible
fill, the error comes back unchanged, the countdown is untouched and the
seed source is untouched. -/
theorem try_fill_inner_error_frame_witness :
    try_fill_bytes gopsNat opsAlwaysOk estate 8 =
      (Except.error errOther, { estate with rng := 1000 }) ∧
    (try_fill_bytes gopsNat opsAlwaysOk estate 8).2.bytes_until_reseed =
      estate.bytes_until_reseed ∧
    (try_fill_bytes gopsNat opsAlwaysOk estate 8).2.reseeder = estate.reseeder :=
  try_fill_inner_error_frame gopsNat opsAlwaysOk estate 8 errOther 1000 rfl

end Reseeding
